import Mathlib

/-!
Verification development for the feedback-trainer MVP repository.

Part 1 embeds the `/feedback` endpoint of `backend/api/feedback.py`
(the `analyze_feedback` handler): its scale-code resolution against
`SCALE_CONFIG` and the post-processing it applies to the JSON object
parsed from the upstream completion reply (total / scale / percent
fix-up and the `evidence.osad` shape fix-up).  The upstream completion
service is an external collaborator; its parsed JSON reply is passed to
the embedded post-processing as an explicit argument.  Python dynamic
typing is modelled by a JSON value type, and a Python `TypeError` /
`AttributeError` raised by an operation on a value of the wrong shape is
modelled by `Except.error`.

Part 2 models the rule-based structure/score inference engine that the
specification describes as the core (sentence splitter, pattern matcher,
structure classifier, rubric scorer, coaching generator).  That engine
is not present under `src/`; each of its definitions is modelled from
the specification and marked as such in its doc comment.
-/

/-- An exact fraction `num / den` (no normalization), modelling the
real-number value of a Python `float`.  The binary floating-point
representation error of CPython floats is not modelled; arithmetic is
exact.  The denominator is nonzero and the sign unconstrained by
construction in every use below. -/
structure Frac where
  num : Int
  den : Int
deriving DecidableEq

/-- Fraction multiplication, without normalization. -/
def fracMul (x y : Frac) : Frac := ⟨x.num * y.num, x.den * y.den⟩

/-- Fraction division, without normalization. -/
def fracDiv (x y : Frac) : Frac := ⟨x.num * y.den, x.den * y.num⟩

/-- JSON values as produced by Python `json.loads`: objects keep key
insertion order (association list), numbers keep the Python `int` /
`float` distinction, and Python `bool` is a separate constructor (but
counts as `int` for `isinstance`, see `pyIsInt`). -/
inductive Json where
  | null : Json
  | bool : Bool → Json
  | int : Int → Json
  | float : Frac → Json
  | str : String → Json
  | arr : List Json → Json
  | obj : List (String × Json) → Json

/-- Lookup of a string key in a Python dict modelled as an association
list (first binding wins; a dict never has duplicate keys). -/
def jlookup : List (String × Json) → String → Option Json
  | [], _ => none
  | (k, v) :: rest, key => if k = key then some v else jlookup rest key

/-- Python dict assignment `d[k] = v`: replaces the value of an existing
key in place, otherwise appends the new binding (insertion order). -/
def jset : List (String × Json) → String → Json → List (String × Json)
  | [], key, v => [(key, v)]
  | (k, w) :: rest, key, v =>
      if k = key then (key, v) :: rest else (k, w) :: jset rest key v

/-- `hasPfx n h` is true iff list `n` is an initial segment of `h`. -/
def hasPfx : List Char → List Char → Bool
  | [], _ => true
  | _ :: _, [] => false
  | a :: as, b :: bs => a == b && hasPfx as bs

/-- `hasSub n h` is true iff list `n` occurs contiguously inside `h`
(Python substring containment `n in h`). -/
def hasSub (n : List Char) : List Char → Bool
  | [] => hasPfx n []
  | c :: rest => hasPfx n (c :: rest) || hasSub n rest

/-- Python membership test `key in v` for a string `key`: key lookup on a
dict, substring test on a string, element equality on a list, and a
`TypeError` on any non-container value. -/
def pyContains : Json → String → Except String Bool
  | .obj kvs, key => .ok (jlookup kvs key).isSome
  | .str s, key => .ok (hasSub key.data s.data)
  | .arr xs, key =>
      .ok (xs.any fun j => match j with | .str s => s == key | _ => false)
  | _, _ => .error "TypeError: argument of type is not iterable"

/-- Python item assignment `v[key] = w`: only a dict supports it here; any
other value raises a `TypeError`. -/
def pySetItem : Json → String → Json → Except String Json
  | .obj kvs, key, v => .ok (.obj (jset kvs key v))
  | _, _, _ => .error "TypeError: object does not support item assignment"

/-- Python `isinstance(v, int)`; `bool` is a subclass of `int` in Python,
so `true` and `false` count as integers. -/
def pyIsInt : Json → Bool
  | .int _ => true
  | .bool _ => true
  | _ => false

/-- The integer value of a Python `int` (with `True = 1`, `False = 0`). -/
def pyIntVal : Json → Int
  | .int n => n
  | .bool b => if b then 1 else 0
  | _ => 0

/-- Python `isinstance(v, (int, float))`. -/
def pyIsNum : Json → Bool
  | .int _ => true
  | .bool _ => true
  | .float _ => true
  | _ => false

/-- The numeric value of a Python `int` / `float` / `bool` as a fraction. -/
def pyNumVal : Json → Frac
  | .int n => ⟨n, 1⟩
  | .bool b => if b then ⟨1, 1⟩ else ⟨0, 1⟩
  | .float q => q
  | _ => ⟨0, 1⟩

/-- Round a fraction to the nearest integer, ties to the even integer
(the rounding rule of Python `round`).  The sign of the denominator is
normalized first; the floor uses flooring integer division. -/
def rndHalfEven (x : Frac) : Int :=
  let n : Int := if x.den < 0 then -x.num else x.num
  let d : Int := if x.den < 0 then -x.den else x.den
  let f : Int := Int.fdiv n d
  let r : Int := n - f * d
  if 2 * r < d then f
  else if d < 2 * r then f + 1
  else if f % 2 = 0 then f else f + 1

/-- Python `round(x, 1)`: round to one decimal digit, ties to even, as an
exact fraction over ten. -/
def pyRound1 (x : Frac) : Frac := ⟨rndHalfEven (fracMul x ⟨10, 1⟩), 10⟩

/-- One entry of `SCALE_CONFIG` in `backend/api/feedback.py`. -/
structure ScaleCfg where
  id : String
  max_per_item : Nat
  num_items : Nat
  max_total : Nat
  dimensions : List String
deriving DecidableEq

/-- The `"OSAD_DEBRIEFER"` entry of `SCALE_CONFIG`. -/
def osadDebriefer : ScaleCfg :=
  { id := "OSAD_DEBRIEFER"
    max_per_item := 5
    num_items := 9
    max_total := 45
    dimensions :=
      ["approach", "learning_env", "engagement", "reaction", "reflection",
       "analysis", "diagnosis", "application", "summary"] }

/-- The `"OMP_CLINICAL"` entry of `SCALE_CONFIG`. -/
def ompClinical : ScaleCfg :=
  { id := "OMP_CLINICAL"
    max_per_item := 5
    num_items := 5
    max_total := 25
    dimensions :=
      ["get_commitment", "probe_for_evidence", "teach_general_rules",
       "reinforce_what_was_done_right", "correct_mistakes"] }

/-- `SCALE_CONFIG`: the fixed table of configured scales. -/
def SCALE_CONFIG : List (String × ScaleCfg) :=
  [("OSAD_DEBRIEFER", osadDebriefer), ("OMP_CLINICAL", ompClinical)]

/-- Key lookup in `SCALE_CONFIG`. -/
def cfgLookup : List (String × ScaleCfg) → String → Option ScaleCfg
  | [], _ => none
  | (k, v) :: rest, key => if k = key then some v else cfgLookup rest key

/-- Python `str.upper()` restricted to ASCII letters (all scale codes in
the source and in the theorems below are ASCII, where the two agree). -/
def pyUpper (s : String) : String := String.mk (s.data.map Char.toUpper)

/-- Scale-code resolution of `analyze_feedback`:
`scale_code = (payload.scale_code or "OSAD_DEBRIEFER").upper()` followed
by `if scale_code not in SCALE_CONFIG: scale_code = "OSAD_DEBRIEFER"`.
Python `or` takes the default for `None` and for the empty string
(falsy). -/
def resolveScaleCode (sc : Option String) : String :=
  let raw : String :=
    match sc with
    | none => "OSAD_DEBRIEFER"
    | some s => if s = "" then "OSAD_DEBRIEFER" else s
  let code := pyUpper raw
  if (cfgLookup SCALE_CONFIG code).isSome then code else "OSAD_DEBRIEFER"

/-- `scale_cfg = SCALE_CONFIG[scale_code]` (the code has been resolved to
a configured key, so the default of `getD` is never used). -/
def scaleCfgOf (code : String) : ScaleCfg :=
  (cfgLookup SCALE_CONFIG code).getD osadDebriefer

/-- The scale configuration selected for a request. -/
def cfgOf (sc : Option String) : ScaleCfg := scaleCfgOf (resolveScaleCode sc)

/-- The sum in the `if "total" not in osad:` branch of `analyze_feedback`:
`numeric_scores = [v for dim in dimensions if isinstance(v := osad.get(dim), int)]`
followed by `sum(numeric_scores)` — only integer-valued dimension entries
contribute. -/
def sumIntScores (dims : List String) (okvs : List (String × Json)) : Int :=
  (dims.filterMap fun dim =>
    match jlookup okvs dim with
    | some v => if pyIsInt v then some (pyIntVal v) else none
    | none => none).sum

/-- The total / scale / percent fix-up of `analyze_feedback` applied to
`osad = data.get("osad", {})`.  `if "total" not in osad` is Python
membership (`pyContains`), `osad.get(dim)` requires a dict
(`AttributeError` otherwise), and `osad["scale"] = max_total` requires a
dict (`TypeError` otherwise). -/
def fixOsad (cfg : ScaleCfg) (osad : Json) : Except String Json := do
  let hasTotal ← pyContains osad "total"
  let osad1 ←
    if hasTotal then pure osad
    else
      match osad with
      | .obj okvs =>
          pure (Json.obj (jset okvs "total" (.int (sumIntScores cfg.dimensions okvs))))
      | _ => Except.error "AttributeError: object has no attribute get"
  let osad2 ← pySetItem osad1 "scale" (.int (cfg.max_total : Int))
  match osad2 with
  | .obj okvs2 =>
      let totalVal : Json := (jlookup okvs2 "total").getD .null
      let pv : Json :=
        if pyIsNum totalVal && decide (0 < cfg.max_total) then
          .float (pyRound1 (fracMul
            (fracDiv (pyNumVal totalVal) ⟨(cfg.max_total : Int), 1⟩) ⟨100, 1⟩))
        else .float ⟨0, 1⟩
      if (jlookup okvs2 "percent").isSome then pure (Json.obj okvs2)
      else pure (Json.obj (jset okvs2 "percent" pv))
  | _ => Except.error "unreachable: pySetItem only returns objects"

/-- The `evidence.osad` shape fix-up of `analyze_feedback`:
`if "evidence" not in data: data["evidence"] = {"osad": {}}` else
`if "osad" not in data["evidence"]: data["evidence"]["osad"] = {}` — the
inner membership test and assignment follow Python semantics for
whatever value `data["evidence"]` holds. -/
def fixEvidence (data : Json) : Except String Json := do
  match data with
  | .obj kvs =>
      match jlookup kvs "evidence" with
      | none => pure (Json.obj (jset kvs "evidence" (.obj [("osad", Json.obj [])])))
      | some ev => do
          let hasOsad ← pyContains ev "osad"
          if hasOsad then pure (Json.obj kvs)
          else do
            let ev2 ← pySetItem ev "osad" (Json.obj [])
            pure (Json.obj (jset kvs "evidence" ev2))
  | _ => Except.error "unreachable: caller passes a dict"

/-- The whole post-processing of the parsed reply in `analyze_feedback`:
`osad = data.get("osad", {})` (an `AttributeError` if the parsed reply is
not a dict), the osad fix-up, `data["osad"] = osad`, and the evidence
fix-up, returning the reshaped reply. -/
def analyzeFeedbackPost (cfg : ScaleCfg) (data : Json) : Except String Json := do
  match data with
  | .obj dkvs =>
      let osad0 : Json := (jlookup dkvs "osad").getD (.obj [])
      let osadF ← fixOsad cfg osad0
      fixEvidence (Json.obj (jset dkvs "osad" osadF))
  | _ => Except.error "AttributeError: object has no attribute get"

/-- The `/feedback` endpoint `analyze_feedback`, with the upstream
completion call abstracted as an external collaborator: given the
request scale code and the JSON object parsed from the reply, resolve
the scale and post-process the reply.  Raised Python exceptions (turned
into HTTP 500 by the handler) are `Except.error`. -/
def analyze_feedback (sc : Option String) (reply : Json) : Except String Json :=
  analyzeFeedbackPost (cfgOf sc) reply

/-- Lookup of key `k` directly under a JSON object (`none` on non-objects). -/
def getPath (j : Json) (k : String) : Option Json :=
  match j with
  | .obj kvs => jlookup kvs k
  | _ => none

/-- Lookup of a two-level path under a JSON object. -/
def getPath2 (j : Json) (k1 k2 : String) : Option Json :=
  match getPath j k1 with
  | some v => getPath v k2
  | none => none

/-- Whether a JSON value is an object (a mapping). -/
def isObj : Json → Bool
  | .obj _ => true
  | _ => false

/-- The value the code stores in `osad["total"]` after the fix-up: the
reply value if the key was present, otherwise the integer sum of the
integer-valued dimension entries. -/
def totalAfter (cfg : ScaleCfg) (okvs : List (String × Json)) : Json :=
  match jlookup okvs "total" with
  | some v => v
  | none => .int (sumIntScores cfg.dimensions okvs)

/-- The value the code stores in `osad["percent"]` when the reply lacked
the key: `round(total / scale * 100, 1)` if the (possibly just-computed)
total is numeric and the scale constant positive, else `0.0`. -/
def percentDefault (cfg : ScaleCfg) (okvs : List (String × Json)) : Json :=
  if pyIsNum (totalAfter cfg okvs) && decide (0 < cfg.max_total) then
    .float (pyRound1 (fracMul
      (fracDiv (pyNumVal (totalAfter cfg okvs)) ⟨(cfg.max_total : Int), 1⟩) ⟨100, 1⟩))
  else .float ⟨0, 1⟩

/-! ### Part 2: the rule-based core, modelled from the specification

The specification's core — the deterministic rule-based analyzer
(sentence splitter, pattern matcher, structure classifier, rubric
scorer, coaching generator) — has no implementation under `src/`; the
repository only contains the LLM-backed path.  Every definition below is
therefore modelled from the specification text (its sections 4.1 to 4.5)
and says so in its doc comment. -/

/-- Modelled from the spec: sentence-terminal punctuation `[.!?]` of the
Sentence Splitter (section 4.1). -/
def isTermChar (c : Char) : Bool := c == '.' || c == '!' || c == '?'

/-- Modelled from the spec: split a character list at every terminal
punctuation character, dropping the terminator (a literal split, no
boundary disambiguation). -/
def splitOnTerm : List Char → List (List Char)
  | [] => [[]]
  | c :: rest =>
      if isTermChar c then [] :: splitOnTerm rest
      else
        match splitOnTerm rest with
        | [] => [[c]]
        | frag :: frags => (c :: frag) :: frags

/-- Modelled from the spec: trim surrounding whitespace from a fragment. -/
def trimChars (cs : List Char) : List Char :=
  ((cs.dropWhile Char.isWhitespace).reverse.dropWhile Char.isWhitespace).reverse

/-- Modelled from the spec (section 4.1): the Sentence Splitter — split
the transcript on `[.!?]`, trim every fragment, drop fragments that are
empty after trimming. -/
def sentencesOf (t : String) : List (List Char) :=
  ((splitOnTerm t.data).map trimChars).filter (fun cs => !cs.isEmpty)

/-- Modelled from the spec (section 4.2): the Pattern Matcher — true iff
any pattern of the list occurs as a substring of the text
(case-sensitive, no normalization, no word boundaries). -/
def matchAny (pats : List String) (text : List Char) : Bool :=
  pats.any fun p => hasSub p.data text

/-- Modelled from the spec: the `opening_question` phrase list. -/
def opening_question : List String :=
  ["생각은", "생각해", "어때", "어땠", "어떻게 판단", "어떻게 느꼈",
   "왜 그렇게", "왜 그랬", "설명해", "설명해볼래", "말해볼래"]

/-- Modelled from the spec: the `opening_first` phrase list. -/
def opening_first : List String := ["먼저", "처음에", "우선", "일단"]

/-- Modelled from the spec: the `core_observation` phrase list. -/
def core_observation : List String :=
  ["했을 때", "하는 걸 보니까", "하는 것을 보니까", "내가 보기에",
   "내가 봤을 때", "네가 ", "환자에게 설명할 때", "설명했을 때"]

/-- Modelled from the spec: the `core_reason` phrase list. -/
def core_reason : List String :=
  ["그래서", "그 결과", "때문에", "영향을 줬", "보였어", "좋아졌어",
   "나빠졌어", "좋았어", "좋았다고", "잘했어", "잘했다고", "아쉬웠어",
   "아쉬운 점", "문제였어", "문제가 있었", "위험했어", "위험할 수 있었"]

/-- Modelled from the spec: the `evaluation` phrase list. -/
def evaluation : List String :=
  ["좋았어", "좋았다고", "잘했", "괜찮았", "인상적이었", "도움이 되었", "도움이 됐"]

/-- Modelled from the spec: the `closing_summary` phrase list. -/
def closing_summary : List String := ["정리하면", "요약하자면", "한마디로", "중요한 건"]

/-- Modelled from the spec: the `closing_next` phrase list. -/
def closing_next : List String :=
  ["다음엔", "다음에는", "다음에", "다음 단계", "해보자", "하면 좋겠어", "해보면 좋겠다"]

/-- Modelled from the spec: the `closing_tail` phrase list (checked only
on the final sentence). -/
def closing_tail : List String := ["보자", "해봐", "해보면", "해보는 게", "해야", "하도록 하자"]

/-- Modelled from the spec (section 4.3): the Opening detector.  Tier 1:
within the first two sentences, a sentence matches `opening_first` and
(contains `?` or matches `opening_question`); or any sentence anywhere
contains `?` and matches `opening_question`.  Tier 2 (only if Tier 1
fails): any sentence contains `?`, or any sentence matches
`opening_question` or `opening_first`. -/
def detectOpening (ss : List (List Char)) : Bool :=
  let tier1 :=
    (ss.take 2).any (fun s =>
        matchAny opening_first s && (s.contains '?' || matchAny opening_question s))
    || ss.any (fun s => s.contains '?' && matchAny opening_question s)
  if tier1 then true
  else
    ss.any (fun s => s.contains '?')
    || ss.any (fun s => matchAny opening_question s || matchAny opening_first s)

/-- Modelled from the spec (section 4.3): Tier 1 of the Core detector,
checked sentence by sentence in order: (a) one sentence matches both
`core_observation` and `core_reason`; (b) a sentence matches
`core_observation` and the immediately following sentence matches
`core_reason`; (c) a sentence matches `core_observation` and contains an
`evaluation` phrase. -/
def detectCoreTier1 : List (List Char) → Bool
  | [] => false
  | [s] => matchAny core_observation s && (matchAny core_reason s || matchAny evaluation s)
  | s :: s2 :: rest =>
      (matchAny core_observation s
        && (matchAny core_reason s || matchAny core_reason s2 || matchAny evaluation s))
      || detectCoreTier1 (s2 :: rest)

/-- Modelled from the spec (section 4.3): the Core detector.  Tier 2
(only if Tier 1 fails): some sentence matches `core_observation`, and
some sentence matches `core_reason` or some sentence contains an
`evaluation` phrase. -/
def detectCore (ss : List (List Char)) : Bool :=
  detectCoreTier1 ss
  || (ss.any (fun s => matchAny core_observation s)
      && (ss.any (fun s => matchAny core_reason s)
          || ss.any (fun s => matchAny evaluation s)))

/-- Modelled from the spec (section 4.3): the Closing detector.  Tier 1:
within the last two sentences, one matches `closing_summary` or
`closing_next`.  Tier 2 (only if Tier 1 fails): any sentence anywhere
matches `closing_summary` or `closing_next`; else the final sentence
contains a `closing_tail` phrase. -/
def detectClosing (ss : List (List Char)) : Bool :=
  if (ss.drop (ss.length - 2)).any
      (fun s => matchAny closing_summary s || matchAny closing_next s) then true
  else if ss.any (fun s => matchAny closing_summary s || matchAny closing_next s) then true
  else
    match ss.getLast? with
    | some s => matchAny closing_tail s
    | none => false

/-- Modelled from the spec: the three structure flags (section 3). -/
structure StructureFlags where
  has_opening : Bool
  has_core : Bool
  has_closing : Bool
deriving DecidableEq

/-- Modelled from the spec (section 4.4): the transcript-level boolean
signals of the Rubric Scorer, computed once on the whole transcript. -/
structure Signals where
  has_summary : Bool
  has_next : Bool
  has_question : Bool
  has_specificity : Bool
deriving DecidableEq

/-- Modelled from the spec (section 4.4): compute the transcript-level
signals by substring search over the whole transcript. -/
def signalsOf (t : String) : Signals :=
  { has_summary := matchAny ["요약", "정리하면", "핵심은", "한마디로"] t.data
    has_next := matchAny ["다음엔", "다음에는", "계획은", "다음 단계", "다음 행동"] t.data
    has_question :=
      t.data.contains '?' || matchAny ["어땠", "생각은", "어떻게", "왜", "무엇이"] t.data
    has_specificity := matchAny ["했을 때", "그래서", "그 결과", "때문에", "관찰"] t.data }

/-- Modelled from the spec (section 3): the nine OSAD dimension scores. -/
structure Scores where
  approach : Int
  learning_env : Int
  engagement : Int
  reaction : Int
  reflection : Int
  analysis : Int
  diagnosis : Int
  application : Int
  summary : Int
deriving DecidableEq

/-- Modelled from the spec (section 4.4): the baseline assignment —
approach 3, every other dimension 2. -/
def baseScores : Scores :=
  { approach := 3, learning_env := 2, engagement := 2, reaction := 2,
    reflection := 2, analysis := 2, diagnosis := 2, application := 2, summary := 2 }

/-- Modelled from the spec (section 4.4): clamp a dimension to `[1, 5]`. -/
def clamp15 (n : Int) : Int := max 1 (min 5 n)

/-- Modelled from the spec (section 4.4): clamp every dimension. -/
def clampScores (s : Scores) : Scores :=
  { approach := clamp15 s.approach, learning_env := clamp15 s.learning_env,
    engagement := clamp15 s.engagement, reaction := clamp15 s.reaction,
    reflection := clamp15 s.reflection, analysis := clamp15 s.analysis,
    diagnosis := clamp15 s.diagnosis, application := clamp15 s.application,
    summary := clamp15 s.summary }

/-- Modelled from the spec (section 4.4): the seven increment rules, in
their fixed order, followed by the final clamp. -/
def scoreRubric (fl : StructureFlags) (sig : Signals) : Scores :=
  let s0 := baseScores
  let s1 := if sig.has_question then
      { s0 with engagement := s0.engagement + 1, reflection := s0.reflection + 1 } else s0
  let s2 := if fl.has_opening then
      { s1 with engagement := s1.engagement + 1, learning_env := s1.learning_env + 1 } else s1
  let s3 := if sig.has_specificity then { s2 with analysis := s2.analysis + 1 } else s2
  let s4 := if fl.has_core then
      { s3 with analysis := s3.analysis + 1, diagnosis := s3.diagnosis + 1 } else s3
  let s5 := if sig.has_summary then { s4 with summary := s4.summary + 1 } else s4
  let s6 := if sig.has_next then
      { s5 with summary := s5.summary + 1, application := s5.application + 1 } else s5
  let s7 := if fl.has_closing then
      { s6 with summary := s6.summary + 1, application := s6.application + 1 } else s6
  clampScores s7

/-- Modelled from the spec: the total is the sum of the nine clamped
dimensions (section 4.4). -/
def totalOfScores (s : Scores) : Int :=
  s.approach + s.learning_env + s.engagement + s.reaction + s.reflection
    + s.analysis + s.diagnosis + s.application + s.summary

/-- Modelled from the spec (section 4.5): the coaching template strings.
Only presence and order are behaviourally significant; the wording may
be localized, so English placeholders are used. -/
def strengthParticipation : String := "Strength: actively invited participation"

/-- Modelled from the spec (section 4.5): closure praise template. -/
def strengthClosure : String := "Strength: closed with summary and next step"

/-- Modelled from the spec (section 4.5): analytic-depth praise template. -/
def strengthAnalysis : String := "Strength: cited specific observed behaviour"

/-- Modelled from the spec (section 4.5): safety praise template. -/
def strengthSafety : String := "Strength: kept a safe learning environment"

/-- Modelled from the spec (section 4.5): question-asking praise template. -/
def strengthQuestion : String := "Strength: asked questions"

/-- Modelled from the spec (section 4.5): opening-question praise template. -/
def strengthOpening : String := "Strength: opened with a question"

/-- Modelled from the spec (section 4.5): closing-summary praise template. -/
def strengthClosing : String := "Strength: closed with a summary"

/-- Modelled from the spec (section 4.5): the absolute-fallback praise. -/
def strengthGeneric : String := "Strength: approached the conversation constructively"

/-- Modelled from the spec (section 4.5): improvement advice templates,
in their fixed priority order. -/
def impOpenQuestion : String := "Improvement: open with a question to the trainee"

/-- Modelled from the spec (section 4.5): second improvement template. -/
def impCiteObservation : String := "Improvement: cite one concrete observed behaviour"

/-- Modelled from the spec (section 4.5): third improvement template. -/
def impCloseSummary : String := "Improvement: close with a 20 second summary and next step"

/-- Modelled from the spec (section 4.5): fourth improvement template. -/
def impAskReflective : String := "Improvement: ask at least two reflective questions"

/-- Modelled from the spec (section 4.5): fifth improvement template. -/
def impSummaryOpener : String := "Improvement: practice a to-summarize opener"

/-- Modelled from the spec (section 4.5): sixth improvement template. -/
def impNextAction : String := "Improvement: co-select one concrete next action"

/-- Modelled from the spec (section 4.5): the fixed sample script. -/
def script_next_time : String :=
  "Script: I observed X, it had impact Y, next time try Z"

/-- Modelled from the spec (section 4.5): the fixed micro-habit tip. -/
def micro_habit : String :=
  "Micro habit: end every feedback with one summary sentence and one next step"

/-- Modelled from the spec (section 4.5): strength selection — the first
two applicable score-based strengths in priority order; if none apply, a
structural-fallback tier; if still none, a single default phrase. -/
def strengthsOf (sc : Scores) (fl : StructureFlags) (sig : Signals) : List String :=
  let tier1 :=
    (if 4 ≤ sc.engagement then [strengthParticipation] else [])
    ++ (if 4 ≤ sc.summary ∧ 4 ≤ sc.application then [strengthClosure] else [])
    ++ (if 4 ≤ sc.analysis then [strengthAnalysis] else [])
    ++ (if 4 ≤ sc.learning_env then [strengthSafety] else [])
  let tier2 :=
    if tier1.isEmpty then
      (if sig.has_question then [strengthQuestion] else [])
      ++ (if fl.has_opening then [strengthOpening] else [])
      ++ (if fl.has_closing then [strengthClosing] else [])
    else tier1
  let chosen := if tier2.isEmpty then [strengthGeneric] else tier2
  chosen.take 2

/-- Modelled from the spec (section 4.5): improvement selection — every
applicable trigger in the fixed order, truncated to the first three. -/
def improvementsOf (sc : Scores) (fl : StructureFlags) (sig : Signals) : List String :=
  ((if sc.engagement ≤ 3 ∨ fl.has_opening = false then [impOpenQuestion] else [])
    ++ (if sc.analysis ≤ 3 ∨ fl.has_core = false ∨ sig.has_specificity = false
        then [impCiteObservation] else [])
    ++ (if sc.summary ≤ 3 ∨ sc.application ≤ 3 ∨ fl.has_closing = false
        then [impCloseSummary] else [])
    ++ (if sig.has_question = false then [impAskReflective] else [])
    ++ (if sig.has_summary = false then [impSummaryOpener] else [])
    ++ (if sig.has_next = false then [impNextAction] else [])).take 3

/-- Modelled from the spec (section 3): the coaching report. -/
structure CoachingReport where
  strengths : List String
  improvements : List String
  script_next_time : String
  micro_habit : String
deriving DecidableEq

/-- Modelled from the spec (section 3): the assembled analysis result of
the rule-based core (OSAD rubric; the scale is the rubric constant 45). -/
structure AnalysisResult where
  struct : StructureFlags
  scores : Scores
  total : Int
  scale : Int
  coach : CoachingReport
deriving DecidableEq

/-- Modelled from the spec (section 2): the rule-based core `analyze` —
sentence splitting, structure classification, transcript-level signals,
rubric scoring, coaching generation, result assembly. -/
def analyze (t : String) : AnalysisResult :=
  let ss := sentencesOf t
  let fl : StructureFlags :=
    { has_opening := detectOpening ss, has_core := detectCore ss,
      has_closing := detectClosing ss }
  let sig := signalsOf t
  let sc := scoreRubric fl sig
  { struct := fl
    scores := sc
    total := totalOfScores sc
    scale := 45
    coach :=
      { strengths := strengthsOf sc fl sig
        improvements := improvementsOf sc fl sig
        script_next_time := script_next_time
        micro_habit := micro_habit } }

/-- Well-formedness of a result of the rule-based core: every dimension
in `[1, 5]`, the total equal to the sum of the dimensions, and the
coaching lists within their size bounds with at least one strength. -/
def resultWF (r : AnalysisResult) : Bool :=
  decide (1 ≤ r.scores.approach) && decide (r.scores.approach ≤ 5)
  && decide (1 ≤ r.scores.learning_env) && decide (r.scores.learning_env ≤ 5)
  && decide (1 ≤ r.scores.engagement) && decide (r.scores.engagement ≤ 5)
  && decide (1 ≤ r.scores.reaction) && decide (r.scores.reaction ≤ 5)
  && decide (1 ≤ r.scores.reflection) && decide (r.scores.reflection ≤ 5)
  && decide (1 ≤ r.scores.analysis) && decide (r.scores.analysis ≤ 5)
  && decide (1 ≤ r.scores.diagnosis) && decide (r.scores.diagnosis ≤ 5)
  && decide (1 ≤ r.scores.application) && decide (r.scores.application ≤ 5)
  && decide (1 ≤ r.scores.summary) && decide (r.scores.summary ≤ 5)
  && decide (r.total = totalOfScores r.scores)
  && decide (r.coach.strengths.length ≤ 2)
  && decide (r.coach.improvements.length ≤ 3)
  && !r.coach.strengths.isEmpty

/-- The conjunction of the six improvement triggers of section 4.5 for a
transcript, phrased on the values the core computes for it. -/
def allSixTriggers (t : String) : Bool :=
  let ss := sentencesOf t
  let fl : StructureFlags :=
    { has_opening := detectOpening ss, has_core := detectCore ss,
      has_closing := detectClosing ss }
  let sig := signalsOf t
  let sc := scoreRubric fl sig
  (decide (sc.engagement ≤ 3) || !fl.has_opening)
  && (decide (sc.analysis ≤ 3) || !fl.has_core || !sig.has_specificity)
  && (decide (sc.summary ≤ 3) || decide (sc.application ≤ 3) || !fl.has_closing)
  && !sig.has_question && !sig.has_summary && !sig.has_next

/-- The fix-up that `fixOsad` applies to an osad value that is a dict: the
normal-form of the reshaped association list (see `fixOsad_obj`). -/
def osadFixed (cfg : ScaleCfg) (okvs : List (String × Json)) : List (String × Json) :=
  let o1 : List (String × Json) :=
    match jlookup okvs "total" with
    | some _ => okvs
    | none => jset okvs "total" (.int (sumIntScores cfg.dimensions okvs))
  let o2 := jset o1 "scale" (.int (cfg.max_total : Int))
  match jlookup okvs "percent" with
  | some _ => o2
  | none => jset o2 "percent" (percentDefault cfg okvs)

/-- The list of configured scale codes (the keys of `SCALE_CONFIG`). -/
def configuredCodes : List String := SCALE_CONFIG.map Prod.fst

/-- Concrete parsed reply for the C4 counterexample: every OSAD dimension
scored 3 but a `total` of 999 already present in the reply. -/
def c4cexOsad : List (String × Json) :=
  [("approach", .int 3), ("learning_env", .int 3), ("engagement", .int 3),
   ("reaction", .int 3), ("reflection", .int 3), ("analysis", .int 3),
   ("diagnosis", .int 3), ("application", .int 3), ("summary", .int 3),
   ("total", .int 999)]

/-- The C4 counterexample reply object. -/
def c4cexReply : Json := .obj [("osad", .obj c4cexOsad)]

/-- The osad object of the reply the endpoint returns for `c4cexReply`. -/
def c4cexOutOsad : List (String × Json) :=
  c4cexOsad ++ [("scale", .int 45), ("percent", .float ⟨22200, 10⟩)]

/-- The reply the endpoint returns for `c4cexReply`. -/
def c4cexOut : Json :=
  .obj [("osad", .obj c4cexOutOsad), ("evidence", .obj [("osad", .obj [])])]

/-- Concrete parsed reply for the C4 witness: every OSAD dimension scored
3 and no `total` in the reply. -/
def c4wOsad : List (String × Json) :=
  [("approach", .int 3), ("learning_env", .int 3), ("engagement", .int 3),
   ("reaction", .int 3), ("reflection", .int 3), ("analysis", .int 3),
   ("diagnosis", .int 3), ("application", .int 3), ("summary", .int 3)]

/-- The C4 witness reply object. -/
def c4wReply : Json := .obj [("osad", .obj c4wOsad)]

/-- The reply the endpoint returns for `c4wReply`. -/
def c4wOut : Json :=
  .obj [("osad", .obj (c4wOsad ++
          [("total", .int 27), ("scale", .int 45), ("percent", .float ⟨600, 10⟩)])),
        ("evidence", .obj [("osad", .obj [])])]

/-- The reply the endpoint returns for the empty reply object `{}`
(used by several witnesses). -/
def emptyReplyOut : Json :=
  .obj [("osad", .obj [("total", .int 0), ("scale", .int 45), ("percent", .float ⟨0, 10⟩)]),
        ("evidence", .obj [("osad", .obj [])])]

/-- Concrete parsed reply for the C10 counterexample: the reply supplies
`evidence` with an `osad` member that is not a mapping. -/
def c10cexReply : Json := .obj [("evidence", .obj [("osad", .int 5)])]

/-- The reply the endpoint returns for `c10cexReply`. -/
def c10cexOut : Json :=
  .obj [("evidence", .obj [("osad", .int 5)]),
        ("osad", .obj [("total", .int 0), ("scale", .int 45), ("percent", .float ⟨0, 10⟩)])]

/-! ### Lemma layer -/

lemma jlookup_jset_self (kvs : List (String × Json)) (k : String) (v : Json) :
    jlookup (jset kvs k v) k = some v := by
  induction kvs with
  | nil => simp [jset, jlookup]
  | cons kv rest ih =>
      obtain ⟨k0, v0⟩ := kv
      by_cases h : k0 = k
      · simp [jset, h, jlookup]
      · simp [jset, h, jlookup, ih]

lemma jlookup_jset_ne (kvs : List (String × Json)) (k1 k2 : String) (v : Json)
    (h : k1 ≠ k2) : jlookup (jset kvs k1 v) k2 = jlookup kvs k2 := by
  induction kvs with
  | nil => simp [jset, jlookup, h]
  | cons kv rest ih =>
      obtain ⟨k0, v0⟩ := kv
      by_cases h0 : k0 = k1
      · subst h0
        simp [jset, jlookup, h]
      · simp [jset, h0, jlookup, ih]

lemma mem_of_hasPfx {n h : List Char} (hp : hasPfx n h = true) :
    ∀ c ∈ n, c ∈ h := by
  induction n generalizing h with
  | nil => intro c hc; exact absurd hc (List.not_mem_nil c)
  | cons a as ih =>
      intro c hc
      cases h with
      | nil => exact absurd hp (by simp [hasPfx])
      | cons b bs =>
          simp only [hasPfx, Bool.and_eq_true, beq_iff_eq] at hp
          rcases List.mem_cons.mp hc with rfl | hcas
          · exact List.mem_cons.mpr (Or.inl hp.1)
          · exact List.mem_cons.mpr (Or.inr (ih hp.2 c hcas))

lemma mem_of_hasSub {n h : List Char} (hs : hasSub n h = true) :
    ∀ c ∈ n, c ∈ h := by
  induction h with
  | nil => exact mem_of_hasPfx (by simpa [hasSub] using hs)
  | cons b bs ih =>
      simp only [hasSub, Bool.or_eq_true] at hs
      rcases hs with hp | hsub
      · exact mem_of_hasPfx hp
      · intro c hc; exact List.mem_cons.mpr (Or.inr (ih hsub c hc))

lemma matchAny_false_of_ws (pats : List String) (hay : List Char)
    (hws : ∀ c ∈ hay, c.isWhitespace = true)
    (hp : ∀ p ∈ pats, ∃ c ∈ p.data, c.isWhitespace = false) :
    matchAny pats hay = false := by
  rw [matchAny, List.any_eq_false]
  intro p hpmem hsub
  obtain ⟨c, hc, hcw⟩ := hp p hpmem
  have hct := hws c (mem_of_hasSub hsub c hc)
  simp [hct] at hcw

lemma contains_q_false_of_ws (cs : List Char)
    (hws : ∀ c ∈ cs, c.isWhitespace = true) : cs.contains '?' = false := by
  induction cs with
  | nil => rfl
  | cons a as ih =>
      have ha := hws a (List.mem_cons_self a as)
      have haq : ('?' == a) = false := by
        cases hq : '?' == a with
        | false => rfl
        | true =>
            have hqa : '?' = a := eq_of_beq hq
            rw [← hqa] at ha
            exact absurd ha (by decide)
      simp only [List.contains, List.elem, haq]
      exact ih (fun c hc => hws c (List.mem_cons_of_mem a hc))

lemma splitOnTerm_ne_nil (cs : List Char) : splitOnTerm cs ≠ [] := by
  induction cs with
  | nil => simp [splitOnTerm]
  | cons c rest ih =>
      by_cases hc : isTermChar c
      · simp [splitOnTerm, hc]
      · simp only [splitOnTerm, hc, if_false]
        cases hsp : splitOnTerm rest with
        | nil => exact absurd hsp ih
        | cons f fs => simp

lemma mem_of_mem_splitOnTerm {cs : List Char} {frag : List Char}
    (hf : frag ∈ splitOnTerm cs) : ∀ c ∈ frag, c ∈ cs := by
  induction cs generalizing frag with
  | nil =>
      simp only [splitOnTerm, List.mem_singleton] at hf
      subst hf
      intro c hc
      exact absurd hc (List.not_mem_nil c)
  | cons a rest ih =>
      by_cases ha : isTermChar a
      · simp only [splitOnTerm, ha, if_true, List.mem_cons] at hf
        rcases hf with rfl | hf
        · intro c hc; exact absurd hc (List.not_mem_nil c)
        · intro c hc
          exact List.mem_cons_of_mem a (ih hf c hc)
      · simp only [splitOnTerm, ha, if_false] at hf
        cases hsp : splitOnTerm rest with
        | nil => exact absurd hsp (splitOnTerm_ne_nil rest)
        | cons f fs =>
            rw [hsp] at hf
            rcases List.mem_cons.mp hf with rfl | hf2
            · intro c hc
              rcases List.mem_cons.mp hc with rfl | hcf
              · exact List.mem_cons_self c rest
              · have hfmem : f ∈ splitOnTerm rest := by rw [hsp]; exact List.mem_cons_self f fs
                exact List.mem_cons_of_mem a (ih hfmem c hcf)
            · intro c hc
              have hfmem : frag ∈ splitOnTerm rest := by
                rw [hsp]; exact List.mem_cons_of_mem f hf2
              exact List.mem_cons_of_mem a (ih hfmem c hc)

lemma trimChars_nil_of_ws {cs : List Char}
    (h : ∀ c ∈ cs, c.isWhitespace = true) : trimChars cs = [] := by
  have h1 : cs.dropWhile Char.isWhitespace = [] :=
    List.dropWhile_eq_nil_iff.mpr h
  simp [trimChars, h1]

lemma sentences_nil_of_ws (t : String)
    (h : ∀ c ∈ t.data, c.isWhitespace = true) : sentencesOf t = [] := by
  rw [sentencesOf, List.filter_eq_nil_iff]
  intro cs hcs
  rcases List.mem_map.mp hcs with ⟨frag, hfrag, rfl⟩
  have hws : ∀ c ∈ frag, c.isWhitespace = true :=
    fun c hc => h c (mem_of_mem_splitOnTerm hfrag c hc)
  simp [trimChars_nil_of_ws hws]

lemma signals_false_of_ws (t : String)
    (h : ∀ c ∈ t.data, c.isWhitespace = true) :
    signalsOf t = ⟨false, false, false, false⟩ := by
  rw [signalsOf]
  congr 1
  · exact matchAny_false_of_ws _ _ h (by decide)
  · exact matchAny_false_of_ws _ _ h (by decide)
  · rw [contains_q_false_of_ws t.data h,
        matchAny_false_of_ws _ _ h (by decide)]
    rfl
  · exact matchAny_false_of_ws _ _ h (by decide)

lemma ebind_ok {α β : Type} (a : α) (f : α → Except String β) :
    (Except.ok a >>= f) = f a := rfl

lemma ebind_err {α β : Type} (e : String) (f : α → Except String β) :
    ((Except.error e : Except String α) >>= f) = Except.error e := rfl

lemma ebind_pure {α β : Type} (a : α) (f : α → Except String β) :
    ((pure a : Except String α) >>= f) = f a := rfl

lemma epure_eq_ok {α : Type} (a : α) : (pure a : Except String α) = Except.ok a := rfl

lemma fixOsad_obj (cfg : ScaleCfg) (okvs : List (String × Json)) :
    fixOsad cfg (.obj okvs) = .ok (.obj (osadFixed cfg okvs)) := by
  cases htot : jlookup okvs "total" with
  | some v =>
      cases hpct : jlookup okvs "percent" with
      | some p =>
          simp only [fixOsad, osadFixed, pyContains, htot, hpct, Option.isSome_some,
            if_true, ebind_ok, ebind_pure, epure_eq_ok, pySetItem,
            jlookup_jset_ne _ "scale" "percent" _ (by decide), Option.getD_some]
      | none =>
          simp only [fixOsad, osadFixed, pyContains, htot, hpct, Option.isSome_some,
            Option.isSome_none, if_true, ebind_ok, ebind_pure, epure_eq_ok, pySetItem,
            jlookup_jset_ne _ "scale" "percent" _ (by decide),
            jlookup_jset_ne _ "scale" "total" _ (by decide), Option.getD_some,
            percentDefault, totalAfter, Bool.false_eq_true, if_false]
  | none =>
      cases hpct : jlookup okvs "percent" with
      | some p =>
          simp only [fixOsad, osadFixed, pyContains, htot, hpct, Option.isSome_none,
            Bool.false_eq_true, if_false, ebind_ok, ebind_pure, epure_eq_ok, pySetItem,
            jlookup_jset_ne _ "scale" "percent" _ (by decide),
            jlookup_jset_ne _ "total" "percent" _ (by decide), Option.isSome_some, if_true]
      | none =>
          simp only [fixOsad, osadFixed, pyContains, htot, hpct, Option.isSome_none,
            Bool.false_eq_true, if_false, ebind_ok, ebind_pure, epure_eq_ok, pySetItem,
            jlookup_jset_ne _ "scale" "percent" _ (by decide),
            jlookup_jset_ne _ "total" "percent" _ (by decide),
            jlookup_jset_ne _ "scale" "total" _ (by decide),
            jlookup_jset_self, Option.getD_some,
            percentDefault, totalAfter]

lemma osadFixed_total (cfg : ScaleCfg) (okvs : List (String × Json)) :
    jlookup (osadFixed cfg okvs) "total" = some (totalAfter cfg okvs) := by
  rw [osadFixed, totalAfter]
  cases htot : jlookup okvs "total" with
  | some v =>
      cases hpct : jlookup okvs "percent" with
      | some p => rw [jlookup_jset_ne _ "scale" "total" _ (by decide), htot]
      | none =>
          rw [jlookup_jset_ne _ "percent" "total" _ (by decide),
            jlookup_jset_ne _ "scale" "total" _ (by decide), htot]
  | none =>
      cases hpct : jlookup okvs "percent" with
      | some p =>
          rw [jlookup_jset_ne _ "scale" "total" _ (by decide), jlookup_jset_self]
      | none =>
          rw [jlookup_jset_ne _ "percent" "total" _ (by decide),
            jlookup_jset_ne _ "scale" "total" _ (by decide), jlookup_jset_self]

lemma osadFixed_scale (cfg : ScaleCfg) (okvs : List (String × Json)) :
    jlookup (osadFixed cfg okvs) "scale" = some (.int (cfg.max_total : Int)) := by
  rw [osadFixed]
  cases htot : jlookup okvs "total" with
  | some v =>
      cases hpct : jlookup okvs "percent" with
      | some p => rw [jlookup_jset_self]
      | none => rw [jlookup_jset_ne _ "percent" "scale" _ (by decide), jlookup_jset_self]
  | none =>
      cases hpct : jlookup okvs "percent" with
      | some p => rw [jlookup_jset_self]
      | none => rw [jlookup_jset_ne _ "percent" "scale" _ (by decide), jlookup_jset_self]

lemma osadFixed_percent (cfg : ScaleCfg) (okvs : List (String × Json)) :
    jlookup (osadFixed cfg okvs) "percent"
      = some ((jlookup okvs "percent").getD (percentDefault cfg okvs)) := by
  rw [osadFixed]
  cases htot : jlookup okvs "total" with
  | some v =>
      cases hpct : jlookup okvs "percent" with
      | some p =>
          rw [jlookup_jset_ne _ "scale" "percent" _ (by decide), hpct]
          rfl
      | none => rw [jlookup_jset_self]; rfl
  | none =>
      cases hpct : jlookup okvs "percent" with
      | some p =>
          rw [jlookup_jset_ne _ "scale" "percent" _ (by decide),
            jlookup_jset_ne _ "total" "percent" _ (by decide), hpct]
          rfl
      | none => rw [jlookup_jset_self]; rfl

lemma fixOsad_ok_shape {cfg : ScaleCfg} {osad0 osadF : Json}
    (h : fixOsad cfg osad0 = .ok osadF) :
    ∃ okvs, osad0 = .obj okvs ∧ osadF = .obj (osadFixed cfg okvs) := by
  cases osad0 with
  | obj okvs =>
      refine ⟨okvs, rfl, ?_⟩
      rw [fixOsad_obj] at h
      exact (Except.ok.injEq _ _ ▸ h).symm
  | null => simp [fixOsad, pyContains, ebind_err] at h
  | bool b => simp [fixOsad, pyContains, ebind_err] at h
  | int n => simp [fixOsad, pyContains, ebind_err] at h
  | float q => simp [fixOsad, pyContains, ebind_err] at h
  | str s =>
      by_cases hs : hasSub ("total".data) s.data
      · simp [fixOsad, pyContains, hs, ebind_ok, pySetItem, ebind_err] at h
      · simp [fixOsad, pyContains, hs, ebind_ok, pySetItem, ebind_err] at h
  | arr xs =>
      by_cases hs : xs.any fun j => match j with | Json.str s => s == "total" | _ => false
      · simp [fixOsad, pyContains, hs, ebind_ok, pySetItem, ebind_err] at h
      · simp [fixOsad, pyContains, hs, ebind_ok, pySetItem, ebind_err] at h

lemma fixEvidence_absent {kvs : List (String × Json)}
    (h : jlookup kvs "evidence" = none) :
    fixEvidence (.obj kvs)
      = .ok (.obj (jset kvs "evidence" (.obj [("osad", Json.obj [])]))) := by
  simp [fixEvidence, h, epure_eq_ok]

lemma fixEvidence_obj_with {kvs ekvs : List (String × Json)} {v : Json}
    (h : jlookup kvs "evidence" = some (.obj ekvs))
    (h2 : jlookup ekvs "osad" = some v) :
    fixEvidence (.obj kvs) = .ok (.obj kvs) := by
  simp [fixEvidence, h, pyContains, h2, ebind_ok, epure_eq_ok]

lemma fixEvidence_obj_without {kvs ekvs : List (String × Json)}
    (h : jlookup kvs "evidence" = some (.obj ekvs))
    (h2 : jlookup ekvs "osad" = none) :
    fixEvidence (.obj kvs)
      = .ok (.obj (jset kvs "evidence" (.obj (jset ekvs "osad" (.obj []))))) := by
  simp [fixEvidence, h, pyContains, h2, ebind_ok, pySetItem, epure_eq_ok]

lemma fixEvidence_ok_preserves {kvs : List (String × Json)} {out : Json}
    (h : fixEvidence (.obj kvs) = .ok out) (k : String) (hk : k ≠ "evidence") :
    getPath out k = jlookup kvs k := by
  rw [fixEvidence] at h
  cases hev : jlookup kvs "evidence" with
  | none =>
      rw [hev] at h
      have hout : out = .obj (jset kvs "evidence" (.obj [("osad", Json.obj [])])) := by
        have := h
        simp [epure_eq_ok] at this
        exact this.symm
      rw [hout, getPath, jlookup_jset_ne _ "evidence" k _ (fun he => hk he.symm)]
  | some ev =>
      rw [hev] at h
      cases ev with
      | obj ekvs =>
          cases hos : jlookup ekvs "osad" with
          | some v =>
              simp [pyContains, hos, ebind_ok, epure_eq_ok] at h
              rw [← h, getPath]
          | none =>
              simp [pyContains, hos, ebind_ok, pySetItem, epure_eq_ok] at h
              rw [← h, getPath, jlookup_jset_ne _ "evidence" k _ (fun he => hk he.symm)]
      | str s =>
          by_cases hs : hasSub ("osad".data) s.data
          · simp [pyContains, hs, ebind_ok, epure_eq_ok] at h
            rw [← h, getPath]
          · simp [pyContains, hs, ebind_ok, pySetItem, ebind_err] at h
      | arr xs =>
          by_cases hs : xs.any fun j => match j with | Json.str s => s == "osad" | _ => false
          · simp [pyContains, hs, ebind_ok, epure_eq_ok] at h
            rw [← h, getPath]
          · simp [pyContains, hs, ebind_ok, pySetItem, ebind_err] at h
      | null => simp [pyContains, ebind_err] at h
      | bool b => simp [pyContains, ebind_err] at h
      | int n => simp [pyContains, ebind_err] at h
      | float q => simp [pyContains, ebind_err] at h

lemma analyzeFeedbackPost_ok {cfg : ScaleCfg} {reply out : Json}
    (h : analyzeFeedbackPost cfg reply = .ok out) :
    ∃ dkvs okvs, reply = .obj dkvs
      ∧ (jlookup dkvs "osad").getD (.obj []) = .obj okvs
      ∧ fixEvidence (.obj (jset dkvs "osad" (.obj (osadFixed cfg okvs)))) = .ok out := by
  cases reply with
  | obj dkvs =>
      rw [analyzeFeedbackPost] at h
      cases hfo : fixOsad cfg ((jlookup dkvs "osad").getD (.obj [])) with
      | error e => rw [hfo, ebind_err] at h; exact absurd h (by simp)
      | ok osadF =>
          obtain ⟨okvs, hsh, rfl⟩ := fixOsad_ok_shape hfo
          rw [hfo, ebind_ok] at h
          exact ⟨dkvs, okvs, rfl, hsh, h⟩
  | null => simp [analyzeFeedbackPost] at h
  | bool b => simp [analyzeFeedbackPost] at h
  | int n => simp [analyzeFeedbackPost] at h
  | float q => simp [analyzeFeedbackPost] at h
  | str s => simp [analyzeFeedbackPost] at h
  | arr xs => simp [analyzeFeedbackPost] at h

lemma analyzeFeedbackPost_out_osad {cfg : ScaleCfg} {dkvs okvs : List (String × Json)}
    {out : Json}
    (hosad : (jlookup dkvs "osad").getD (.obj []) = .obj okvs)
    (h : analyzeFeedbackPost cfg (.obj dkvs) = .ok out) :
    getPath out "osad" = some (.obj (osadFixed cfg okvs)) := by
  obtain ⟨dkvs2, okvs2, heq, hosad2, hfe⟩ := analyzeFeedbackPost_ok h
  obtain rfl : dkvs = dkvs2 := by injection heq
  obtain rfl : okvs = okvs2 := by
    rw [hosad] at hosad2
    injection hosad2
  rw [fixEvidence_ok_preserves hfe "osad" (by decide), jlookup_jset_self]

lemma clamp15_low (n : Int) : 1 ≤ clamp15 n := le_max_left 1 _

lemma clamp15_high (n : Int) : clamp15 n ≤ 5 :=
  max_le (by norm_num) (min_le_left 5 n)

lemma scoreRubric_eq_clamp (fl : StructureFlags) (sig : Signals) :
    ∃ s, scoreRubric fl sig = clampScores s := ⟨_, rfl⟩

lemma analyze_scores_bounds (t : String) :
    (1 ≤ (analyze t).scores.approach ∧ (analyze t).scores.approach ≤ 5)
    ∧ (1 ≤ (analyze t).scores.learning_env ∧ (analyze t).scores.learning_env ≤ 5)
    ∧ (1 ≤ (analyze t).scores.engagement ∧ (analyze t).scores.engagement ≤ 5)
    ∧ (1 ≤ (analyze t).scores.reaction ∧ (analyze t).scores.reaction ≤ 5)
    ∧ (1 ≤ (analyze t).scores.reflection ∧ (analyze t).scores.reflection ≤ 5)
    ∧ (1 ≤ (analyze t).scores.analysis ∧ (analyze t).scores.analysis ≤ 5)
    ∧ (1 ≤ (analyze t).scores.diagnosis ∧ (analyze t).scores.diagnosis ≤ 5)
    ∧ (1 ≤ (analyze t).scores.application ∧ (analyze t).scores.application ≤ 5)
    ∧ (1 ≤ (analyze t).scores.summary ∧ (analyze t).scores.summary ≤ 5) := by
  have hsc : (analyze t).scores = scoreRubric
      { has_opening := detectOpening (sentencesOf t),
        has_core := detectCore (sentencesOf t),
        has_closing := detectClosing (sentencesOf t) } (signalsOf t) := rfl
  obtain ⟨s, hs⟩ := scoreRubric_eq_clamp
      ({ has_opening := detectOpening (sentencesOf t),
         has_core := detectCore (sentencesOf t),
         has_closing := detectClosing (sentencesOf t) } : StructureFlags) (signalsOf t)
  rw [hsc, hs]
  exact ⟨⟨clamp15_low _, clamp15_high _⟩, ⟨clamp15_low _, clamp15_high _⟩,
    ⟨clamp15_low _, clamp15_high _⟩, ⟨clamp15_low _, clamp15_high _⟩,
    ⟨clamp15_low _, clamp15_high _⟩, ⟨clamp15_low _, clamp15_high _⟩,
    ⟨clamp15_low _, clamp15_high _⟩, ⟨clamp15_low _, clamp15_high _⟩,
    ⟨clamp15_low _, clamp15_high _⟩⟩

lemma analyze_total_eq (t : String) :
    (analyze t).total = totalOfScores (analyze t).scores := rfl

lemma analyze_total_bounds (t : String) :
    9 ≤ (analyze t).total ∧ (analyze t).total ≤ 45 := by
  obtain ⟨h1, h2, h3, h4, h5, h6, h7, h8, h9⟩ := analyze_scores_bounds t
  rw [analyze_total_eq, totalOfScores]
  constructor <;> omega

lemma take_two_ne_nil {l : List String} (h : l ≠ []) : l.take 2 ≠ [] := by
  cases l with
  | nil => exact absurd rfl h
  | cons a as => simp

lemma ifEmptyDefault_ne_nil (l : List String) :
    (if l.isEmpty then [strengthGeneric] else l) ≠ [] := by
  cases hl : l.isEmpty with
  | true => simp [hl]
  | false =>
      rw [if_neg (by simp [hl])]
      intro hf
      rw [hf] at hl
      exact absurd hl (by simp)

lemma strengthsOf_ne_nil (sc : Scores) (fl : StructureFlags) (sig : Signals) :
    strengthsOf sc fl sig ≠ [] := by
  rw [strengthsOf]
  exact take_two_ne_nil (ifEmptyDefault_ne_nil _)

lemma strengthsOf_len (sc : Scores) (fl : StructureFlags) (sig : Signals) :
    (strengthsOf sc fl sig).length ≤ 2 := by
  rw [strengthsOf]
  exact List.length_take_le 2 _

lemma improvementsOf_len (sc : Scores) (fl : StructureFlags) (sig : Signals) :
    (improvementsOf sc fl sig).length ≤ 3 := by
  rw [improvementsOf]
  exact List.length_take_le 3 _

lemma improvementsOf_all_triggers (sc : Scores) (fl : StructureFlags) (sig : Signals)
    (h1 : sc.engagement ≤ 3 ∨ fl.has_opening = false)
    (h2 : sc.analysis ≤ 3 ∨ fl.has_core = false ∨ sig.has_specificity = false)
    (h3 : sc.summary ≤ 3 ∨ sc.application ≤ 3 ∨ fl.has_closing = false)
    (h4 : sig.has_question = false) (h5 : sig.has_summary = false)
    (h6 : sig.has_next = false) :
    improvementsOf sc fl sig = [impOpenQuestion, impCiteObservation, impCloseSummary] := by
  rw [improvementsOf, if_pos h1, if_pos h2, if_pos h3, if_pos h4, if_pos h5, if_pos h6]
  rfl

lemma scaleCfgOf_cases (code : String) :
    scaleCfgOf code = osadDebriefer ∨ scaleCfgOf code = ompClinical := by
  rw [scaleCfgOf, SCALE_CONFIG, cfgLookup]
  by_cases h1 : "OSAD_DEBRIEFER" = code
  · rw [if_pos h1]; exact Or.inl rfl
  · rw [if_neg h1, cfgLookup]
    by_cases h2 : "OMP_CLINICAL" = code
    · rw [if_pos h2]; exact Or.inr rfl
    · rw [if_neg h2, cfgLookup]; exact Or.inl rfl

lemma cfgOf_cases (sc : Option String) :
    cfgOf sc = osadDebriefer ∨ cfgOf sc = ompClinical := scaleCfgOf_cases _

/-! ### Claim theorems -/

/-- C1: determinism of the analysis operation — for every transcript the
rule-based core returns equal results on repeated invocations, and the
endpoint post-processing returns equal results for equal scale codes and
parsed replies; both are pure functions with no hidden state, I/O or
randomness in the embedding. -/
theorem C1_determinism :
    (∀ t : String, analyze t = analyze t)
    ∧ ∀ (sc : Option String) (reply : Json),
        analyze_feedback sc reply = analyze_feedback sc reply :=
  ⟨fun _ => rfl, fun _ _ => rfl⟩

/-- C2: for an empty or whitespace-only transcript the rule-based core
returns the baseline result — all three structure flags false, approach
3 and every other of the eight OSAD dimensions 2, total 19 — rather than
failing. -/
theorem C2_empty_transcript_baseline (t : String)
    (h : ∀ c ∈ t.data, c.isWhitespace = true) :
    (analyze t).struct = ⟨false, false, false⟩
    ∧ (analyze t).scores = ⟨3, 2, 2, 2, 2, 2, 2, 2, 2⟩
    ∧ (analyze t).total = 19 := by
  have hs := sentences_nil_of_ws t h
  have hg := signals_false_of_ws t h
  have hstruct : (analyze t).struct = ⟨false, false, false⟩ := by
    show (⟨detectOpening (sentencesOf t), detectCore (sentencesOf t),
      detectClosing (sentencesOf t)⟩ : StructureFlags) = ⟨false, false, false⟩
    rw [hs]
    decide
  have hscores : (analyze t).scores = ⟨3, 2, 2, 2, 2, 2, 2, 2, 2⟩ := by
    show scoreRubric ⟨detectOpening (sentencesOf t), detectCore (sentencesOf t),
      detectClosing (sentencesOf t)⟩ (signalsOf t) = ⟨3, 2, 2, 2, 2, 2, 2, 2, 2⟩
    rw [hs, hg]
    decide
  refine ⟨hstruct, hscores, ?_⟩
  have htt : (analyze t).total = totalOfScores (analyze t).scores := rfl
  rw [htt, hscores]
  decide

/-- Witness for C2 at the empty transcript. -/
theorem C2_empty_transcript_baseline_w :
    (∀ c ∈ ("" : String).data, c.isWhitespace = true)
    ∧ ((analyze "").struct = ⟨false, false, false⟩
       ∧ (analyze "").scores = ⟨3, 2, 2, 2, 2, 2, 2, 2, 2⟩
       ∧ (analyze "").total = 19) :=
  ⟨by decide, C2_empty_transcript_baseline "" (by decide)⟩

/-- C3: for every input every per-dimension score of the rule-based core
lies in the integer range [1, 5], the total is the sum of the dimension
scores, and the total lies in [9, 45] for the OSAD rubric. -/
theorem C3_score_bounds (t : String) :
    (1 ≤ (analyze t).scores.approach ∧ (analyze t).scores.approach ≤ 5)
    ∧ (1 ≤ (analyze t).scores.learning_env ∧ (analyze t).scores.learning_env ≤ 5)
    ∧ (1 ≤ (analyze t).scores.engagement ∧ (analyze t).scores.engagement ≤ 5)
    ∧ (1 ≤ (analyze t).scores.reaction ∧ (analyze t).scores.reaction ≤ 5)
    ∧ (1 ≤ (analyze t).scores.reflection ∧ (analyze t).scores.reflection ≤ 5)
    ∧ (1 ≤ (analyze t).scores.analysis ∧ (analyze t).scores.analysis ≤ 5)
    ∧ (1 ≤ (analyze t).scores.diagnosis ∧ (analyze t).scores.diagnosis ≤ 5)
    ∧ (1 ≤ (analyze t).scores.application ∧ (analyze t).scores.application ≤ 5)
    ∧ (1 ≤ (analyze t).scores.summary ∧ (analyze t).scores.summary ≤ 5)
    ∧ (analyze t).total = totalOfScores (analyze t).scores
    ∧ 9 ≤ (analyze t).total ∧ (analyze t).total ≤ 45 := by
  obtain ⟨h1, h2, h3, h4, h5, h6, h7, h8, h9⟩ := analyze_scores_bounds t
  exact ⟨h1, h2, h3, h4, h5, h6, h7, h8, h9, analyze_total_eq t,
    (analyze_total_bounds t).1, (analyze_total_bounds t).2⟩

/-- C7: totality — for every input, including empty strings, pure
punctuation and non-language text, the rule-based core produces a
defined, well-formed output; no exception escapes (the embedding is a
total function into well-formed results). -/
theorem C7_totality (t : String) : resultWF (analyze t) = true := by
  obtain ⟨⟨a1, a2⟩, ⟨b1, b2⟩, ⟨c1, c2⟩, ⟨d1, d2⟩, ⟨e1, e2⟩, ⟨f1, f2⟩,
    ⟨g1, g2⟩, ⟨i1, i2⟩, ⟨j1, j2⟩⟩ := analyze_scores_bounds t
  have hne : (analyze t).coach.strengths.isEmpty = false := by
    cases he : (analyze t).coach.strengths with
    | nil => exact absurd he (strengthsOf_ne_nil _ _ _)
    | cons x xs => rfl
  have hlen2 : (analyze t).coach.strengths.length ≤ 2 := strengthsOf_len _ _ _
  have hlen3 : (analyze t).coach.improvements.length ≤ 3 := improvementsOf_len _ _ _
  rw [resultWF]
  simp only [Bool.and_eq_true, decide_eq_true_eq, Bool.not_eq_true']
  repeat' apply And.intro
  exacts [a1, a2, b1, b2, c1, c2, d1, d2, e1, e2, f1, f2, g1, g2, i1, i2, j1, j2,
    analyze_total_eq t, hlen2, hlen3, hne]

/-- C8: the coaching improvements list always has at most three entries,
and a transcript triggering all six improvement conditions yields
exactly the first three improvement templates in the fixed priority
order. -/
theorem C8_improvement_truncation (t : String) :
    (analyze t).coach.improvements.length ≤ 3
    ∧ (allSixTriggers t = true →
        (analyze t).coach.improvements
          = [impOpenQuestion, impCiteObservation, impCloseSummary]) := by
  constructor
  · exact improvementsOf_len _ _ _
  · intro h
    rw [allSixTriggers] at h
    simp only [Bool.and_eq_true, Bool.or_eq_true, decide_eq_true_eq,
      Bool.not_eq_true'] at h
    obtain ⟨⟨⟨⟨⟨h1, h2⟩, h3⟩, h4⟩, h5⟩, h6⟩ := h
    exact improvementsOf_all_triggers _ _ _ h1 (or_assoc.mp h2) (or_assoc.mp h3) h4 h5 h6

/-- Witness for C8: the empty transcript triggers all six improvement
conditions and yields exactly the three top-priority improvements. -/
theorem C8_improvement_truncation_w :
    allSixTriggers "" = true
    ∧ (analyze "").coach.improvements
        = [impOpenQuestion, impCiteObservation, impCloseSummary] :=
  ⟨by decide, (C8_improvement_truncation "").2 (by decide)⟩

/-- C4 counterexample: a parsed reply that already contains a `total`
inconsistent with its dimension scores is returned with that total
unchanged — the returned total 999 differs from the sum 27 of the
returned per-dimension scores, so the claim as stated is false. -/
theorem C4_cex :
    analyze_feedback (some "OSAD_DEBRIEFER") c4cexReply = .ok c4cexOut
    ∧ getPath2 c4cexOut "osad" "total" = some (.int 999)
    ∧ sumIntScores (cfgOf (some "OSAD_DEBRIEFER")).dimensions c4cexOutOsad = 27
    ∧ (999 : Int) ≠ 27 :=
  ⟨rfl, rfl, rfl, by decide⟩

/-- C4 (amended): the returned total equals the sum of the integer-valued
per-dimension scores of the active rubric when the upstream reply omits
`total`; a total already present in the reply is passed through
unchanged. -/
theorem C4_total_amended (sc : Option String) (dkvs okvs : List (String × Json))
    (out : Json)
    (hosad : (jlookup dkvs "osad").getD (.obj []) = .obj okvs)
    (hrun : analyze_feedback sc (.obj dkvs) = .ok out) :
    getPath2 out "osad" "total" = some (totalAfter (cfgOf sc) okvs) := by
  have hrun2 : analyzeFeedbackPost (cfgOf sc) (.obj dkvs) = .ok out := hrun
  have hpo := analyzeFeedbackPost_out_osad hosad hrun2
  rw [getPath2, hpo]
  exact osadFixed_total _ _

/-- Witness for C4 (amended): a reply without `total` whose nine OSAD
dimensions are all 3 yields total 27. -/
theorem C4_total_amended_w :
    jlookup c4wOsad "total" = none
    ∧ getPath2 c4wOut "osad" "total" = some (.int 27) := by
  refine ⟨rfl, ?_⟩
  exact C4_total_amended (some "OSAD_DEBRIEFER") [("osad", .obj c4wOsad)] c4wOsad
    c4wOut rfl rfl

/-- C5: the returned scale field always equals the fixed `max_total` of
the selected scale configuration (45 for the 9-dimension OSAD rubric, 25
for the 5-dimension OMP rubric), for every parsed reply independent of
any scale value the reply contains. -/
theorem C5_scale_constant (sc : Option String) (reply out : Json)
    (hrun : analyze_feedback sc reply = .ok out) :
    getPath2 out "osad" "scale" = some (.int ((cfgOf sc).max_total : Int))
    ∧ (cfgOf sc = osadDebriefer ∨ cfgOf sc = ompClinical)
    ∧ osadDebriefer.max_total = 45 ∧ osadDebriefer.dimensions.length = 9
    ∧ ompClinical.max_total = 25 ∧ ompClinical.dimensions.length = 5 := by
  have hrun2 : analyzeFeedbackPost (cfgOf sc) reply = .ok out := hrun
  obtain ⟨dkvs, okvs, rfl, hosad, hfe⟩ := analyzeFeedbackPost_ok hrun2
  have hpo := analyzeFeedbackPost_out_osad hosad hrun2
  refine ⟨?_, cfgOf_cases sc, rfl, rfl, rfl, rfl⟩
  rw [getPath2, hpo]
  exact osadFixed_scale _ _

/-- Witness for C5: the empty reply object under the default scale gets
scale 45. -/
theorem C5_scale_constant_w :
    analyze_feedback none (.obj []) = .ok emptyReplyOut
    ∧ getPath2 emptyReplyOut "osad" "scale" = some (.int 45) := by
  refine ⟨rfl, ?_⟩
  exact (C5_scale_constant none (.obj []) emptyReplyOut rfl).1

/-- C6 counterexample: the request code `"omp_clinical"` is not one of
the configured codes, yet the analysis does not fall back to the default
9-dimension OSAD configuration — after upper-casing it selects the OMP
configuration with max total 25, so the claim as stated is false. -/
theorem C6_cex :
    ("omp_clinical" ∈ configuredCodes → False)
    ∧ (cfgOf (some "omp_clinical")).max_total = 25
    ∧ (cfgOf (some "omp_clinical")).max_total ≠ osadDebriefer.max_total
    ∧ cfgOf (some "omp_clinical") = ompClinical :=
  ⟨by decide, rfl, by decide, rfl⟩

/-- C6 (amended): for every request whose scale code is absent, empty, or
whose upper-cased code is not one of the configured codes, the analysis
does not fail and proceeds with the default `OSAD_DEBRIEFER`
configuration (9 dimensions, max total 45). -/
theorem C6_unknown_scale_fallback (sc : Option String)
    (h : sc = none ∨ sc = some ""
      ∨ ∀ s, sc = some s → cfgLookup SCALE_CONFIG (pyUpper s) = none) :
    cfgOf sc = osadDebriefer
    ∧ (cfgOf sc).num_items = 9 ∧ (cfgOf sc).max_total = 45
    ∧ ∀ reply, analyze_feedback sc reply = analyzeFeedbackPost osadDebriefer reply := by
  have hcfg : cfgOf sc = osadDebriefer := by
    rcases h with rfl | rfl | hu
    · rfl
    · rfl
    · cases sc with
      | none => rfl
      | some s =>
          have hl := hu s rfl
          by_cases hs : s = ""
          · subst hs; rfl
          · rw [cfgOf, resolveScaleCode]
            simp only [hs, if_false, hl, Option.isSome_none, Bool.false_eq_true]
            rfl
  refine ⟨hcfg, by rw [hcfg]; rfl, by rw [hcfg]; rfl, fun reply => ?_⟩
  rw [analyze_feedback, hcfg]

/-- Witness for C6 (amended): the unknown code `"FOO"` falls back to the
default OSAD configuration. -/
theorem C6_unknown_scale_fallback_w :
    (some "FOO" = none ∨ some "FOO" = some ""
      ∨ ∀ s, (some "FOO" : Option String) = some s →
          cfgLookup SCALE_CONFIG (pyUpper s) = none)
    ∧ cfgOf (some "FOO") = osadDebriefer := by
  have hh : some "FOO" = none ∨ some "FOO" = some ""
      ∨ ∀ s, (some "FOO" : Option String) = some s →
          cfgLookup SCALE_CONFIG (pyUpper s) = none :=
    Or.inr (Or.inr (fun s hs => by cases hs; rfl))
  exact ⟨hh, (C6_unknown_scale_fallback (some "FOO") hh).1⟩

/-- C9: for every parsed reply whose osad object lacks a `percent` key,
the returned percent is `round(total / scale * 100, 1)` when the
(possibly just-computed) total is numeric and the scale constant
positive, and `0.0` otherwise; a percent already present in the reply is
returned unchanged (the two cases are the `getD` of `percentDefault`). -/
theorem C9_percent_default (sc : Option String) (dkvs okvs : List (String × Json))
    (out : Json)
    (hosad : (jlookup dkvs "osad").getD (.obj []) = .obj okvs)
    (hrun : analyze_feedback sc (.obj dkvs) = .ok out) :
    getPath2 out "osad" "percent"
      = some ((jlookup okvs "percent").getD (percentDefault (cfgOf sc) okvs)) := by
  have hrun2 : analyzeFeedbackPost (cfgOf sc) (.obj dkvs) = .ok out := hrun
  have hpo := analyzeFeedbackPost_out_osad hosad hrun2
  rw [getPath2, hpo]
  exact osadFixed_percent _ _

/-- Witness for C9: the empty reply object gets the computed default
percent 0.0. -/
theorem C9_percent_default_w :
    jlookup ([] : List (String × Json)) "percent" = none
    ∧ getPath2 emptyReplyOut "osad" "percent" = some (.float ⟨0, 10⟩) := by
  refine ⟨rfl, ?_⟩
  exact C9_percent_default none [] [] emptyReplyOut rfl rfl

/-- C10 counterexample: a reply supplying `evidence` as an object whose
`osad` member is the number 5 is returned successfully with that value
passed through — the returned `evidence.osad` is not a mapping, so the
claim as stated is false. -/
theorem C10_cex :
    analyze_feedback (some "OSAD_DEBRIEFER") c10cexReply = .ok c10cexOut
    ∧ getPath2 c10cexOut "evidence" "osad" = some (.int 5)
    ∧ isObj (.int 5) = false :=
  ⟨rfl, rfl, rfl⟩

/-- C10 (amended): every successfully returned result has the evidence
shape fix-up applied — when the reply omits `evidence`, or supplies it as
an object without an `osad` key, the result carries an empty mapping at
`evidence.osad`; an evidence object that already has an `osad` member
(of whatever type) is passed through unmodified. -/
theorem C10_evidence_amended (sc : Option String) (dkvs : List (String × Json))
    (out : Json)
    (hrun : analyze_feedback sc (.obj dkvs) = .ok out) :
    (jlookup dkvs "evidence" = none →
        getPath2 out "evidence" "osad" = some (.obj []))
    ∧ ∀ ekvs, jlookup dkvs "evidence" = some (.obj ekvs) →
        (jlookup ekvs "osad" = none →
            getPath2 out "evidence" "osad" = some (.obj []))
        ∧ ∀ v, jlookup ekvs "osad" = some v →
            getPath out "evidence" = some (.obj ekvs) := by
  have hrun2 : analyzeFeedbackPost (cfgOf sc) (.obj dkvs) = .ok out := hrun
  obtain ⟨dkvs2, okvs, heq, hosad, hfe⟩ := analyzeFeedbackPost_ok hrun2
  obtain rfl : dkvs = dkvs2 := by injection heq
  have hev1 : jlookup (jset dkvs "osad" (.obj (osadFixed (cfgOf sc) okvs))) "evidence"
      = jlookup dkvs "evidence" :=
    jlookup_jset_ne _ "osad" "evidence" _ (by decide)
  constructor
  · intro habs
    rw [fixEvidence_absent (hev1.trans habs)] at hfe
    injection hfe with hout
    rw [← hout, getPath2]
    have hg : getPath
        (Json.obj (jset (jset dkvs "osad" (.obj (osadFixed (cfgOf sc) okvs)))
          "evidence" (.obj [("osad", Json.obj [])]))) "evidence"
        = some (.obj [("osad", Json.obj [])]) := jlookup_jset_self _ _ _
    rw [hg]
    rfl
  · intro ekvs hev
    constructor
    · intro hosadnone
      rw [fixEvidence_obj_without (hev1.trans hev) hosadnone] at hfe
      injection hfe with hout
      rw [← hout, getPath2]
      have hg : getPath
          (Json.obj (jset (jset dkvs "osad" (.obj (osadFixed (cfgOf sc) okvs)))
            "evidence" (.obj (jset ekvs "osad" (.obj []))))) "evidence"
          = some (.obj (jset ekvs "osad" (.obj []))) := jlookup_jset_self _ _ _
      rw [hg]
      exact jlookup_jset_self _ _ _
    · intro v hv
      rw [fixEvidence_obj_with (hev1.trans hev) hv] at hfe
      injection hfe with hout
      rw [← hout]
      exact hev1.trans hev

/-- Witness for C10 (amended): the empty reply object gets an empty
`evidence.osad` mapping. -/
theorem C10_evidence_amended_w :
    jlookup ([] : List (String × Json)) "evidence" = none
    ∧ getPath2 emptyReplyOut "evidence" "osad" = some (.obj []) := by
  refine ⟨rfl, ?_⟩
  exact (C10_evidence_amended none [] emptyReplyOut rfl).1 rfl
